import Mathlib

/-! MERN backend: request authentication and nested-collection mutation.

A shallow embedding of the Express handlers of `middlewares/auth.js`,
`routes/api/posts.js`, `routes/api/profile.js` and `routes/api/users.js`.

* A handler is a pure function from the environment of one request (`Env`),
  the store before the request (`Db`) and the request data to an `Outcome`:
  the response sent, the store afterwards and whether a write completed.
* `await`ed queries that throw are the `readFault` of the environment, a
  `save()` that throws is `writeOk = false`; both land in the handler's
  `catch` block exactly as in the source.
* JavaScript arrays are lists; `unshift`, `splice`, `includes` and `find`
  follow ECMAScript. `indexOf` is called on what `map` returns for a
  document array, which in Mongoose 5.4 to 5.13 is again a Mongoose array:
  its `indexOf` compares with `==`.
-/

namespace MERN

/-! ## Values and array operations -/

/-- An identifier in its string form (the 24 hex digits of an ObjectId). -/
abbrev Id := String

/-- The two kinds of JavaScript value that the handlers put in the arrays
they search: a primitive string, or an ObjectId object (kept by its hex
digits). -/
inductive JsVal where
  | str (s : String)
  | oid (hex : String)
  deriving DecidableEq, Repr

/-- Loose equality `needle == x` against a string needle: a string equals it
when the characters agree, and an ObjectId is first converted to its hex
digits, so it equals the needle when these agree. -/
def JsVal.looseEqStr : JsVal → String → Bool
  | .str s, needle => s == needle
  | .oid hex, needle => hex == needle

/-- Worker of `indexOf`: the scan from position `k`. -/
def indexOfFrom (xs : List JsVal) (needle : String) (k : Nat) : Int :=
  match xs with
  | [] => -1
  | x :: rest => if x.looseEqStr needle then (k : Int) else indexOfFrom rest needle (k + 1)

/-- The `indexOf(needle)` of a Mongoose array: the first index whose element
is loosely equal to the needle, or `-1`. -/
def indexOf (xs : List JsVal) (needle : String) : Int :=
  indexOfFrom xs needle 0

/-- `Array.prototype.includes(needle)` on an array of strings. -/
def includes (xs : List String) (needle : String) : Bool :=
  xs.any (fun x => x == needle)

/-- `Array.prototype.unshift(x)`: the array with `x` put in front. -/
def unshift {α : Type} (xs : List α) (x : α) : List α :=
  x :: xs

/-- The array left by `Array.prototype.splice(start, deleteCount)`: a
negative `start` counts from the end (`max (len + start) 0`), a positive one
is capped at the length, and at most `len - start` elements are deleted. -/
def splice {α : Type} (xs : List α) (start : Int) (deleteCount : Nat) : List α :=
  let len := xs.length
  let s : Nat := if start < 0 then ((len : Int) + start).toNat else min start.toNat len
  xs.take s ++ xs.drop (s + min deleteCount (len - s))

/-! ## Data model -/

/-- Modelled from the spec: the Post schema (models/Post) is not among the
sources. A like references one identity and, as an array sub-document,
carries its own generated identifier. -/
structure Like where
  _id : Id
  user : Id
  deriving DecidableEq, Repr

/-- Modelled from the spec: the Post schema (models/Post) is not among the
sources. A comment carries its own identifier, an author reference and
text, plus the denormalised name and avatar that the handler copies in. -/
structure Comment where
  _id : Id
  user : Id
  text : String
  name : String
  avatar : String
  deriving DecidableEq, Repr

/-- Modelled from the spec: the Post schema (models/Post) is not among the
sources. The fields are the ones the handlers read and write. -/
structure Post where
  _id : Id
  user : Id
  texts : String
  name : String
  avatar : String
  likes : List Like
  comments : List Comment
  deriving DecidableEq, Repr

/-- Modelled from the spec: the Profile schema (models/Profile) is not among
the sources. An experience entry carries its generated identifier and the
fields the handler copies from the request body. -/
structure Experience where
  _id : Id
  title : Option String
  company : Option String
  location : Option String
  from_ : Option String
  to_ : Option String
  current : Option String
  description : Option String
  deriving DecidableEq, Repr

/-- Modelled from the spec: the Profile schema (models/Profile) is not among
the sources. An education entry carries its generated identifier and the
fields the handler copies from the request body. -/
structure Education where
  _id : Id
  school : Option String
  degree : Option String
  fieldofstudy : Option String
  from_ : Option String
  to_ : Option String
  current : Option String
  description : Option String
  deriving DecidableEq, Repr

/-- Modelled from the spec: the Profile schema (models/Profile) is not among
the sources. A profile belongs to one identity and holds the two ordered
sub-collections; the scalar fields are not touched by the handlers below. -/
structure Profile where
  user : Id
  status : String
  experience : List Experience
  education : List Education
  deriving DecidableEq, Repr

/-- Modelled from the spec: the User schema (models/Users) is not among the
sources. -/
structure User where
  _id : Id
  name : String
  email : String
  avatar : String
  password : String
  deriving DecidableEq, Repr

/-- The three collections of the store. -/
structure Db where
  users : List User
  profiles : List Profile
  posts : List Post
  deriving DecidableEq, Repr

/-- The `id` getter of a sub-document: the string form of `_id`. -/
def Comment.id (c : Comment) : String := c._id

/-- The `id` getter of a sub-document: the string form of `_id`. -/
def Experience.id (e : Experience) : String := e._id

/-- The `id` getter of a sub-document: the string form of `_id`. -/
def Education.id (e : Education) : String := e._id

/-- The string a like sub-document converts to with `toString()`: the
rendering of the document, not an identifier. -/
def Like.toString (l : Like) : String :=
  "\x7b _id: " ++ l._id ++ ", user: " ++ l.user ++ " \x7d"

/-- `User.findById(id)`. -/
def Db.findUser (db : Db) (id : Id) : Option User :=
  db.users.find? (fun u => u._id == id)

/-- `Post.findById(id)`. -/
def Db.findPost (db : Db) (id : Id) : Option Post :=
  db.posts.find? (fun p => p._id == id)

/-- `Profile.findOne` by the owning identity. -/
def Db.findProfile (db : Db) (user : Id) : Option Profile :=
  db.profiles.find? (fun p => p.user == user)

/-- A completed `post.save()`: the stored document with that identifier is
replaced by the document in memory. -/
def Db.savePost (db : Db) (post : Post) : Db :=
  { db with posts := db.posts.map (fun p => if p._id == post._id then post else p) }

/-- A completed `post.remove()`. -/
def Db.removePost (db : Db) (post : Post) : Db :=
  { db with posts := db.posts.filter (fun p => !(p._id == post._id)) }

/-- A completed `profile.save()`. -/
def Db.saveProfile (db : Db) (profile : Profile) : Db :=
  { db with profiles := db.profiles.map (fun p => if p.user == profile.user then profile else p) }

/-! ## Requests, responses, environment -/

/-- The body of a response: the object with the key `msg`; the object with
the key `errors` holding the array of validation errors; the empty object
(what `res.json` sends for an object whose only property is a function); a
plain text sent with `res.send`; an array of likes or of comments; a profile
document; the object with the key `token`. -/
inductive Body where
  | msg (s : String)
  | errors
  | emptyObject
  | text (s : String)
  | token (t : String)
  | likes (ls : List Like)
  | comments (cs : List Comment)
  | profile (p : Profile)
  deriving DecidableEq, Repr

/-- A response: `res.status(n)` (200 when not set) and the body sent. -/
structure Response where
  status : Nat
  body : Body
  deriving DecidableEq, Repr

/-- Whether the body is sent as a JSON array. -/
def Body.isJsonArray : Body → Bool
  | .likes _ => true
  | .comments _ => true
  | _ => false

/-- Whether the body is sent as the JSON object with the key `msg`. -/
def Body.isMsgObject : Body → Bool
  | .msg _ => true
  | _ => false

/-- The `kind` of a thrown error, as far as the handlers look at it. -/
inductive Fault where
  | objectId
  | other
  deriving DecidableEq, Repr

/-- What the surroundings decide for one request: whether an awaited query
throws, whether a write completes, and the identifier generated for a
sub-document created by the request. -/
structure Env where
  readFault : Option Fault
  writeOk : Bool
  freshId : Id
  deriving DecidableEq, Repr

/-- The result of a handler: the response, the store after the request, and
whether a write to the store completed. -/
structure Outcome where
  response : Response
  db : Db
  persisted : Bool
  deriving DecidableEq, Repr

/-- The reply of every `catch` block: `res.status(500).send("Server error.")`. -/
def serverError : Response := ⟨500, .text "Server error."⟩

/-- `check(field, msg).not().isEmpty()`: the field passes when it is present
and not the empty string. -/
def notEmpty : Option String → Bool
  | some s => !(s == "")
  | none => false

/-! ## middlewares/auth.js -/

/-- The two ways `jwt.verify` throws that the spec tells apart: the token is
past its expiry, or its signature or payload is not valid. -/
inductive VerifyError where
  | tokenExpired
  | invalidToken
  deriving DecidableEq, Repr

/-- The `user` object of a token payload. -/
structure UserClaim where
  id : Id
  deriving DecidableEq, Repr

/-- A decoded payload; `user` is absent when the payload has no such key. -/
structure Payload where
  user : Option UserClaim
  deriving DecidableEq, Repr

/-- What the middleware did: the response it sent (if any), how many times it
called `next`, and the value it assigned to `req.user` (if it assigned). -/
structure AuthOutcome where
  response : Option Response
  nextCalls : Nat
  reqUser : Option (Option UserClaim)
  deriving DecidableEq, Repr

/-- The middleware of `middlewares/auth.js`. `verify` stands for `jwt.verify`
of the jsonwebtoken package and `jwtSecret` for `config.get("jwtSecret")`;
`header` is the value of `req.header("x-auth-token")`. `next` hands over to
the router and does not throw back into the middleware. -/
def auth (verify : String → String → Except VerifyError Payload) (jwtSecret : String)
    (header : Option String) : AuthOutcome :=
  match header with
  | none => ⟨some ⟨401, .msg "No Token; Unauthorized access."⟩, 0, none⟩
  | some token =>
    if token == "" then ⟨some ⟨401, .msg "No Token; Unauthorized access."⟩, 0, none⟩
    else
      match verify token jwtSecret with
      | .ok decoded => ⟨none, 1, some decoded.user⟩
      | .error _ => ⟨some ⟨401, .msg "Invalid token."⟩, 0, none⟩

/-! ## routes/api/posts.js -/

/-- Handler of `DELETE api/posts/:id`. `caller` is `req.user.id`. The call
`post.remove()` is not awaited: the response does not depend on it. -/
def deletePost (env : Env) (db : Db) (caller : Id) (id : Id) : Outcome :=
  match env.readFault with
  | some .objectId => ⟨⟨404, .msg "Post not found."⟩, db, false⟩
  | some .other => ⟨serverError, db, false⟩
  | none =>
    match db.findPost id with
    | none => ⟨⟨404, .msg "Post not found."⟩, db, false⟩
    | some post =>
      if post.user != caller then ⟨⟨200, .msg "Not authorized to remove post."⟩, db, false⟩
      else if env.writeOk then ⟨⟨200, .msg "Post has been removed."⟩, db.removePost post, true⟩
      else ⟨⟨200, .msg "Post has been removed."⟩, db, false⟩

/-- Handler of `PUT api/posts/like/:post_id`. -/
def putLike (env : Env) (db : Db) (caller : Id) (post_id : Id) : Outcome :=
  match env.readFault with
  | some _ => ⟨serverError, db, false⟩
  | none =>
    match db.findPost post_id with
    | none => ⟨⟨404, .msg "Post not found."⟩, db, false⟩
    | some post =>
      let alreadyLiked := includes (post.likes.map (fun like => like.user)) caller
      if alreadyLiked then ⟨⟨400, .msg "Post already liked."⟩, db, false⟩
      else
        let likes := unshift post.likes { _id := env.freshId, user := caller }
        if env.writeOk then ⟨⟨200, .likes likes⟩, db.savePost { post with likes := likes }, true⟩
        else ⟨serverError, db, false⟩

/-- Handler of `PUT api/posts/unlike/:post_id`. The index is looked up among
the string renderings of the likes, with the post identifier as needle. -/
def putUnlike (env : Env) (db : Db) (caller : Id) (post_id : Id) : Outcome :=
  match env.readFault with
  | some _ => ⟨serverError, db, false⟩
  | none =>
    match db.findPost post_id with
    | none => ⟨⟨404, .msg "Post not found."⟩, db, false⟩
    | some post =>
      let alreadyLiked := includes (post.likes.map (fun like => like.user)) caller
      if !alreadyLiked then ⟨⟨400, .msg "Post has not yet been liked."⟩, db, false⟩
      else
        let postIndex := indexOf (post.likes.map (fun like => JsVal.str like.toString)) post_id
        let likes := splice post.likes postIndex 1
        if env.writeOk then ⟨⟨200, .likes likes⟩, db.savePost { post with likes := likes }, true⟩
        else ⟨serverError, db, false⟩

/-- Handler of `POST api/posts/comment/:post_id`. `text` is `req.body.text`.
On a validation error the handler sends the object whose `errors` property
is the method `errors.array` itself, not its result: a function is left out
of the JSON text, so the body is the empty object. A missing user or post
makes the property access throw, which the `catch` block answers. -/
def postComment (env : Env) (db : Db) (caller : Id) (post_id : Id) (text : Option String) :
    Outcome :=
  if !(notEmpty text) then ⟨⟨400, .emptyObject⟩, db, false⟩
  else
    match env.readFault with
    | some _ => ⟨serverError, db, false⟩
    | none =>
      match db.findUser caller with
      | none => ⟨serverError, db, false⟩
      | some user =>
        let newComment : Comment :=
          { _id := env.freshId, user := caller, text := text.getD "", name := user.name,
            avatar := user.avatar }
        match db.findPost post_id with
        | none => ⟨serverError, db, false⟩
        | some post =>
          let comments := unshift post.comments newComment
          if env.writeOk then
            ⟨⟨200, .comments comments⟩, db.savePost { post with comments := comments }, true⟩
          else ⟨serverError, db, false⟩

/-- Handler of `DELETE api/posts/comment/:post_id/:comment_id`. The comment is
found by its `id` string; the index is looked up among the `_id` objects,
with the string `comment_id` as needle, by the `indexOf` of the Mongoose
array that `map` returns. -/
def deleteComment (env : Env) (db : Db) (caller : Id) (post_id : Id) (comment_id : Id) :
    Outcome :=
  match env.readFault with
  | some _ => ⟨serverError, db, false⟩
  | none =>
    match db.findPost post_id with
    | none => ⟨serverError, db, false⟩
    | some post =>
      match post.comments.find? (fun comment => comment.id == comment_id) with
      | none => ⟨⟨404, .msg "Comment not found."⟩, db, false⟩
      | some comment =>
        let isCommentOwner := comment.user == caller
        if !isCommentOwner then ⟨⟨401, .msg "Unauthorized to remove comment."⟩, db, false⟩
        else
          let commentIndex :=
            indexOf (post.comments.map (fun comment => JsVal.oid comment._id)) comment_id
          let comments := splice post.comments commentIndex 1
          if env.writeOk then
            ⟨⟨200, .comments comments⟩, db.savePost { post with comments := comments }, true⟩
          else ⟨serverError, db, false⟩

/-! ## routes/api/profile.js -/

/-- The fields that `PUT api/profile/experience` reads from `req.body`. -/
structure ExperienceBody where
  title : Option String
  company : Option String
  location : Option String
  from_ : Option String
  to_ : Option String
  current : Option String
  description : Option String
  deriving DecidableEq, Repr

/-- The fields that `PUT api/profile/education` reads from `req.body`. -/
structure EducationBody where
  school : Option String
  degree : Option String
  fieldofstudy : Option String
  from_ : Option String
  to_ : Option String
  current : Option String
  description : Option String
  deriving DecidableEq, Repr

/-- Handler of `PUT api/profile/experience`. A validation error is answered
with `res.json` without a status; a missing profile makes the property
access throw. -/
def putExperience (env : Env) (db : Db) (caller : Id) (body : ExperienceBody) : Outcome :=
  if !(notEmpty body.title && notEmpty body.company && notEmpty body.from_) then
    ⟨⟨200, .errors⟩, db, false⟩
  else
    let newExp : Experience :=
      { _id := env.freshId, title := body.title, company := body.company,
        location := body.location, from_ := body.from_, to_ := body.to_,
        current := body.current, description := body.description }
    match env.readFault with
    | some _ => ⟨serverError, db, false⟩
    | none =>
      match db.findProfile caller with
      | none => ⟨serverError, db, false⟩
      | some profile =>
        let experience := unshift profile.experience newExp
        if env.writeOk then
          ⟨⟨200, .msg "Experience added."⟩,
            db.saveProfile { profile with experience := experience }, true⟩
        else ⟨serverError, db, false⟩

/-- Handler of `DELETE api/profile/experience/:exp_id`. -/
def deleteExperience (env : Env) (db : Db) (caller : Id) (exp_id : Id) : Outcome :=
  match env.readFault with
  | some _ => ⟨serverError, db, false⟩
  | none =>
    match db.findProfile caller with
    | none => ⟨serverError, db, false⟩
    | some profile =>
      let expIndex := indexOf (profile.experience.map (fun exp => JsVal.str exp.id)) exp_id
      let experience := splice profile.experience expIndex 1
      let profile := { profile with experience := experience }
      if env.writeOk then ⟨⟨200, .profile profile⟩, db.saveProfile profile, true⟩
      else ⟨serverError, db, false⟩

/-- Handler of `PUT api/profile/education`. -/
def putEducation (env : Env) (db : Db) (caller : Id) (body : EducationBody) : Outcome :=
  if !(notEmpty body.school && notEmpty body.degree && notEmpty body.fieldofstudy
      && notEmpty body.from_) then
    ⟨⟨200, .errors⟩, db, false⟩
  else
    let newEdu : Education :=
      { _id := env.freshId, school := body.school, degree := body.degree,
        fieldofstudy := body.fieldofstudy, from_ := body.from_, to_ := body.to_,
        current := body.current, description := body.description }
    match env.readFault with
    | some _ => ⟨serverError, db, false⟩
    | none =>
      match db.findProfile caller with
      | none => ⟨serverError, db, false⟩
      | some profile =>
        let education := unshift profile.education newEdu
        if env.writeOk then
          ⟨⟨200, .msg "Education added."⟩,
            db.saveProfile { profile with education := education }, true⟩
        else ⟨serverError, db, false⟩

/-- Handler of `DELETE api/profile/education/:edu_id`. -/
def deleteEducation (env : Env) (db : Db) (caller : Id) (edu_id : Id) : Outcome :=
  match env.readFault with
  | some _ => ⟨serverError, db, false⟩
  | none =>
    match db.findProfile caller with
    | none => ⟨serverError, db, false⟩
    | some profile =>
      let eduIndex := indexOf (profile.education.map (fun edu => JsVal.str edu.id)) edu_id
      let education := splice profile.education eduIndex 1
      let profile := { profile with education := education }
      if env.writeOk then ⟨⟨200, .profile profile⟩, db.saveProfile profile, true⟩
      else ⟨serverError, db, false⟩

/-! ## routes/api/users.js -/

/-- The fields that `POST api/users` reads from `req.body`. -/
structure UserBody where
  name : Option String
  email : Option String
  password : Option String
  deriving DecidableEq, Repr

/-- The packages that registration calls besides the token package:
`isEmail` of the validator, `gravatar.url`, and `bcrypt.hash` under the salt
generated for the request. -/
structure Lib where
  isEmail : String → Bool
  gravatarUrl : String → String
  hash : String → String

/-- The jsonwebtoken package as its two callers use it. `sign` and `verify`
take the clock (seconds) at the time of the call first; `sign` then takes
the payload, the secret and the `expiresIn` option, `verify` the token and
the secret. `seconds` is the reading of a time span such as `7d`. -/
structure Jwt where
  sign : Nat → Payload → String → String → Except Unit String
  verify : Nat → String → String → Except VerifyError Payload
  seconds : String → Nat

/-- Modelled from the spec: the jsonwebtoken package is not among the
sources. A token issued for a payload verifies to that payload, under the
same secret, until its expiry (the time of issue plus the span); a token is
never the empty string. -/
def Jwt.RoundTrip (jwt : Jwt) : Prop :=
  ∀ (iat : Nat) (payload : Payload) (secret span token : String) (now : Nat),
    jwt.sign iat payload secret span = .ok token →
      token ≠ "" ∧ (now < iat + jwt.seconds span → jwt.verify now token secret = .ok payload)

/-- The result of registration: the response (none when the callback of
`jwt.sign` throws, which happens outside the `try` block), the store
afterwards and whether a write completed. -/
structure SignupOutcome where
  response : Option Response
  db : Db
  persisted : Bool

/-- A completed `save()` of a new user document. -/
def Db.insertUser (db : Db) (user : User) : Db :=
  { db with users := db.users ++ [user] }

/-- Handler of `POST api/users`. `jwtSecret` is `config.get("jwtSecret")`,
`clock` the time of the call to `jwt.sign`, `env.freshId` the identifier
generated for the new user document. The validators read an absent field
as the empty string. -/
def postUsers (jwt : Jwt) (lib : Lib) (jwtSecret : String) (clock : Nat) (env : Env) (db : Db)
    (body : UserBody) : SignupOutcome :=
  let name := body.name.getD ""
  let email := body.email.getD ""
  let password := body.password.getD ""
  if !(notEmpty body.name && lib.isEmail email && decide (6 ≤ password.length)) then
    ⟨some ⟨400, .errors⟩, db, false⟩
  else
    match env.readFault with
    | some _ => ⟨some serverError, db, false⟩
    | none =>
      match db.users.find? (fun u => u.email == email) with
      | some _ => ⟨some ⟨400, .errors⟩, db, false⟩
      | none =>
        let user : User :=
          { _id := env.freshId, name := name, email := email,
            avatar := lib.gravatarUrl email, password := lib.hash password }
        if !env.writeOk then ⟨some serverError, db, false⟩
        else
          let payload : Payload := { user := some { id := user._id } }
          match jwt.sign clock payload jwtSecret "7d" with
          | .ok token => ⟨some ⟨200, .token token⟩, db.insertUser user, true⟩
          | .error _ => ⟨none, db.insertUser user, true⟩

/-! ## Sample data used by the concrete evaluations -/

/-- An environment in which queries and writes complete. -/
def envOk : Env := { readFault := none, writeOk := true, freshId := "n1" }

/-- Two comments on one post: the newer by `u1`, the older by `u2`. -/
def sampleComments : List Comment :=
  [ { _id := "c1", user := "u1", text := "hello", name := "Ann", avatar := "a1" },
    { _id := "c2", user := "u2", text := "world", name := "Bob", avatar := "a2" } ]

/-- Two likes on one post: the newer by `u1`, the older by `u2`. -/
def sampleLikes : List Like :=
  [ { _id := "l1", user := "u1" }, { _id := "l2", user := "u2" } ]

/-- Three comments on one post, by `u1`, `u2` and `u1`. -/
def sampleThread : List Comment :=
  [ { _id := "c1", user := "u1", text := "hello", name := "Ann", avatar := "a1" },
    { _id := "c2", user := "u2", text := "world", name := "Bob", avatar := "a2" },
    { _id := "c3", user := "u1", text := "again", name := "Ann", avatar := "a1" } ]

/-- A post owned by `u1` carrying the three comments. -/
def threadPost : Post :=
  { _id := "p2", user := "u1", texts := "second", name := "Ann", avatar := "a1",
    likes := [], comments := sampleThread }

/-- A store holding the post with the three comments. -/
def threadDb : Db := { users := [], profiles := [], posts := [threadPost] }

/-- A post owned by `u1` carrying the sample likes and comments. -/
def samplePost : Post :=
  { _id := "p1", user := "u1", texts := "first", name := "Ann", avatar := "a1",
    likes := sampleLikes, comments := sampleComments }

/-- Two experience entries. -/
def sampleExperience : List Experience :=
  [ { _id := "e1", title := some "dev", company := some "acme", location := none,
      from_ := some "2019-01-01", to_ := none, current := none, description := none },
    { _id := "e2", title := some "ops", company := some "initech", location := none,
      from_ := some "2017-01-01", to_ := some "2018-12-31", current := none,
      description := none } ]

/-- Two education entries. -/
def sampleEducation : List Education :=
  [ { _id := "d1", school := some "mit", degree := some "msc", fieldofstudy := some "cs",
      from_ := some "2015-09-01", to_ := none, current := none, description := none },
    { _id := "d2", school := some "eth", degree := some "bsc", fieldofstudy := some "math",
      from_ := some "2012-09-01", to_ := none, current := none, description := none } ]

/-- The profile of `u1`. -/
def sampleProfile : Profile :=
  { user := "u1", status := "developer", experience := sampleExperience,
    education := sampleEducation }

/-- A store with two users, the profile of `u1` and the sample post. -/
def sampleDb : Db :=
  { users :=
      [ { _id := "u1", name := "Ann", email := "ann@x.io", avatar := "a1", password := "h1" },
        { _id := "u2", name := "Bob", email := "bob@x.io", avatar := "a2", password := "h2" } ],
    profiles := [sampleProfile],
    posts := [samplePost] }

/-- A stand-in for `jwt.verify`: the token `good` decodes to the identity
`u1`, the token `old` is past its expiry, every other token is not valid. -/
def sampleVerify (token : String) (_secret : String) : Except VerifyError Payload :=
  if token == "good" then .ok { user := some { id := "u1" } }
  else if token == "old" then .error .tokenExpired
  else .error .invalidToken

/-- Reads a run of the character `1` closed by another character: the length
of the run and what follows the closing character. -/
def countOnes : List Char → Nat × List Char
  | [] => (0, [])
  | c :: rest => if c = '1' then ((countOnes rest).1 + 1, (countOnes rest).2) else (0, rest)

/-- The token of the stand-in package: the length of the id in ones, the id,
the expiry in ones, the secret, the runs closed by `0`. -/
def sampleEncode (id secret : String) (exp : Nat) : String :=
  String.mk (List.replicate id.length '1' ++
    '0' :: (id.data ++ (List.replicate exp '1' ++ '0' :: secret.data)))

/-- The stand-in reading of a time span: `7d` is seven days in seconds. -/
def sampleSeconds (span : String) : Nat :=
  if span == "7d" then 604800 else 0

/-- The stand-in `sign`: every payload that has a user is signed, with the
expiry at the time of issue plus the span. -/
def sampleJwtSign (iat : Nat) (payload : Payload) (secret span : String) : Except Unit String :=
  match payload.user with
  | some u => .ok (sampleEncode u.id secret (iat + sampleSeconds span))
  | none => .error ()

/-- The stand-in `verify`: it reads the token back, compares the secret and
then the expiry with the clock. -/
def sampleJwtVerify (now : Nat) (token secret : String) : Except VerifyError Payload :=
  let a := countOnes token.data
  let b := countOnes (a.2.drop a.1)
  if String.mk b.2 == secret then
    if now < b.1 then .ok ⟨some ⟨String.mk (a.2.take a.1)⟩⟩ else .error .tokenExpired
  else .error .invalidToken

/-- A stand-in for the jsonwebtoken package. -/
def sampleJwt : Jwt := ⟨sampleJwtSign, sampleJwtVerify, sampleSeconds⟩

/-- A stand-in for the validator, gravatar and bcrypt packages. -/
def sampleLib : Lib where
  isEmail s := s.data.any (fun c => c == '@')
  gravatarUrl s := "//www.gravatar.com/avatar/" ++ s
  hash s := "hashed:" ++ s

/-- A registration body that passes the three checks. -/
def sampleUserBody : UserBody :=
  { name := some "Cy", email := some "cy@x.io", password := some "secret1" }

/-- An experience body that passes the three checks. -/
def sampleExperienceBody : ExperienceBody :=
  { title := some "cto", company := some "globex", location := none,
    from_ := some "2020-01-01", to_ := none, current := none, description := none }

/-- An environment in which a storage write fails. -/
def envWriteFails : Env := { readFault := none, writeOk := false, freshId := "n1" }

/-! ## Array lemmas -/

theorem indexOfFrom_oid_found {α : Type} (f : α → String) (pre : List α) (e : α)
    (post : List α) (needle : String) (k : Nat) (hpre : ∀ x ∈ pre, f x ≠ needle)
    (he : f e = needle) :
    indexOfFrom ((pre ++ e :: post).map (fun x => JsVal.oid (f x))) needle k
      = ((k + pre.length : Nat) : Int) := by
  induction pre generalizing k with
  | nil => simp [indexOfFrom, JsVal.looseEqStr, he]
  | cons x rest ih =>
    have hx : f x ≠ needle := hpre x (List.mem_cons_self _ _)
    have hrest : ∀ y ∈ rest, f y ≠ needle := fun y hy => hpre y (List.mem_cons_of_mem _ hy)
    have hstep := ih (k + 1) hrest
    rw [List.cons_append, List.map_cons, indexOfFrom]
    simp only [JsVal.looseEqStr, List.length_cons]
    rw [if_neg (by simpa using hx), hstep]
    congr 1
    omega

/-- Entries in front of an entry of a collection with pairwise distinct ids
do not carry its id. -/
theorem ids_before_differ {α : Type} (f : α → String) (pre : List α) (e : α) (post : List α)
    (hnd : ((pre ++ e :: post).map f).Nodup) : ∀ x ∈ pre, f x ≠ f e := by
  intro x hx heq
  rw [List.map_append, List.map_cons, List.nodup_append] at hnd
  exact hnd.2.2 (List.mem_map_of_mem f hx) (heq ▸ List.mem_cons_self _ _)

theorem find?_first_match {α : Type} (f : α → String) (pre : List α) (e : α)
    (post : List α) (needle : String) (hpre : ∀ x ∈ pre, f x ≠ needle) (he : f e = needle) :
    (pre ++ e :: post).find? (fun x => f x == needle) = some e := by
  induction pre with
  | nil => simp [he]
  | cons x rest ih =>
    have hx : f x ≠ needle := hpre x (List.mem_cons_self _ _)
    have hrest : ∀ y ∈ rest, f y ≠ needle := fun y hy => hpre y (List.mem_cons_of_mem _ hy)
    have h2 : ¬ (f x == needle) = true := by simpa using hx
    have h3 : ∀ l : List α, List.find? (fun x => f x == needle) (x :: l)
        = List.find? (fun x => f x == needle) l := fun l => List.find?_cons_of_neg l h2
    rw [List.cons_append, h3]
    exact ih hrest

theorem indexOfFrom_str_absent {α : Type} (f : α → String) (xs : List α) (needle : String)
    (k : Nat) (h : ∀ x ∈ xs, f x ≠ needle) :
    indexOfFrom (xs.map (fun x => JsVal.str (f x))) needle k = -1 := by
  induction xs generalizing k with
  | nil => rfl
  | cons x rest ih =>
    have hx : f x ≠ needle := h x (List.mem_cons_self _ _)
    have hrest : ∀ y ∈ rest, f y ≠ needle := fun y hy => h y (List.mem_cons_of_mem _ hy)
    simp [indexOfFrom, JsVal.looseEqStr, hx, ih (k + 1) hrest]

theorem indexOfFrom_str_found {α : Type} (f : α → String) (pre : List α) (e : α)
    (post : List α) (needle : String) (k : Nat) (hpre : ∀ x ∈ pre, f x ≠ needle)
    (he : f e = needle) :
    indexOfFrom ((pre ++ e :: post).map (fun x => JsVal.str (f x))) needle k
      = ((k + pre.length : Nat) : Int) := by
  induction pre generalizing k with
  | nil => simp [indexOfFrom, JsVal.looseEqStr, he]
  | cons x rest ih =>
    have hx : f x ≠ needle := hpre x (List.mem_cons_self _ _)
    have hrest : ∀ y ∈ rest, f y ≠ needle := fun y hy => hpre y (List.mem_cons_of_mem _ hy)
    have hstep := ih (k + 1) hrest
    rw [List.cons_append, List.map_cons, indexOfFrom]
    simp only [JsVal.looseEqStr, List.length_cons]
    rw [if_neg (by simpa using hx), hstep]
    congr 1
    omega

theorem splice_at_length {α : Type} (pre : List α) (e : α) (post : List α) :
    splice (pre ++ e :: post) (pre.length : Int) 1 = pre ++ post := by
  have hlt : ¬ ((pre.length : Int) < 0) := by omega
  simp only [splice, if_neg hlt, Int.toNat_ofNat, List.length_append, List.length_cons]
  have h1 : min pre.length (pre.length + (post.length + 1)) = pre.length := by omega
  have h2 : min 1 (pre.length + (post.length + 1) - pre.length) = 1 := by omega
  rw [h1, h2, List.take_left, List.drop_append_eq_append_drop]
  simp

theorem splice_neg_one {α : Type} (xs : List α) : splice xs (-1) 1 = xs.dropLast := by
  cases xs.eq_nil_or_concat with
  | inl h => subst h; rfl
  | inr h =>
    obtain ⟨ys, y, rfl⟩ := h
    have hneg : ((-1 : Int) < 0) := by omega
    simp only [splice, if_pos hneg, List.length_append, List.length_singleton,
      List.dropLast_concat, List.concat_eq_append]
    have h1 : (((ys.length + 1 : Nat) : Int) + -1).toNat = ys.length := by omega
    rw [h1]
    have h2 : min 1 (ys.length + 1 - ys.length) = 1 := by omega
    rw [h2, List.take_left, List.drop_append_eq_append_drop]
    simp

theorem includes_iff (xs : List String) (needle : String) :
    includes xs needle = true ↔ needle ∈ xs := by
  unfold includes
  rw [List.any_eq_true]
  constructor
  · rintro ⟨x, hx, hxe⟩
    have : x = needle := by simpa using hxe
    exact this ▸ hx
  · intro h
    exact ⟨needle, h, by simp⟩

/-! ## Store lemmas -/

theorem find?_map_replace {α : Type} (key : α → String) (xs : List α) (k : String)
    (old new : α) (h : xs.find? (fun x => key x == k) = some old) (hk : key new = k) :
    (xs.map (fun x => if key x == key new then new else x)).find? (fun x => key x == k)
      = some new := by
  induction xs with
  | nil => simp at h
  | cons x rest ih =>
    rw [List.map_cons]
    by_cases hx : key x = k
    · have h1 : (key x == key new) = true := by simp [hx, hk]
      rw [if_pos h1, List.find?_cons_of_pos]
      simp [hk]
    · have h1 : ¬ (key x == key new) = true := by simp [hx, hk]
      have h2 : ¬ (key x == k) = true := by simpa using hx
      have h3 : ∀ l : List α, List.find? (fun x => key x == k) (x :: l)
          = List.find? (fun x => key x == k) l := fun l => List.find?_cons_of_neg l h2
      rw [if_neg h1, h3]
      rw [h3] at h
      exact ih h

theorem findPost_id {db : Db} {id : Id} {post : Post} (h : db.findPost id = some post) :
    post._id = id := by
  have := List.find?_some h
  simpa using this

theorem findProfile_user {db : Db} {user : Id} {profile : Profile}
    (h : db.findProfile user = some profile) : profile.user = user := by
  have := List.find?_some h
  simpa using this

theorem findPost_savePost (db : Db) (id : Id) (post new : Post)
    (h : db.findPost id = some post) (hid : new._id = id) :
    (db.savePost new).findPost id = some new :=
  find?_map_replace Post._id db.posts id post new h hid

theorem findProfile_saveProfile (db : Db) (user : Id) (profile new : Profile)
    (h : db.findProfile user = some profile) (hid : new.user = user) :
    (db.saveProfile new).findProfile user = some new :=
  find?_map_replace Profile.user db.profiles user profile new h hid

/-- The precondition shared by like and unlike, in terms of the entries. -/
theorem alreadyLiked_iff (likes : List Like) (caller : Id) :
    includes (likes.map (fun like => like.user)) caller = true ↔
      ∃ l ∈ likes, l.user = caller := by
  rw [includes_iff, List.mem_map]

/-! ## The index lookup of unlike -/

/-- Past its precondition, unlike looks the post id up among the renderings
of the likes: when no rendering is the post id, the index is `-1` and the
last like is the one spliced out. -/
theorem putUnlike_splices_last (env : Env) (db : Db) (caller post_id : Id) (post : Post)
    (hread : env.readFault = none) (hwrite : env.writeOk = true)
    (hpost : db.findPost post_id = some post)
    (hliked : ∃ l ∈ post.likes, l.user = caller)
    (hrender : ∀ l ∈ post.likes, l.toString ≠ post_id) :
    (putUnlike env db caller post_id).response = ⟨200, .likes post.likes.dropLast⟩ := by
  have hinc := (alreadyLiked_iff post.likes caller).mpr hliked
  have hidx : indexOf (post.likes.map (fun like => JsVal.str like.toString)) post_id = -1 :=
    indexOfFrom_str_absent Like.toString post.likes post_id 0 hrender
  simp [putUnlike, hread, hwrite, hpost, hinc, hidx, splice_neg_one]

/-! ## Claims -/

/-- C1: on an existing post, delete-comment answers 404 with a `msg` body when
no comment of the post has the given id, and 401 with a `msg` body when a
comment has that id but no comment with that id is authored by the caller;
in both cases the store is returned as it was and no write completes. A
request gets past the guard (a write completes, the store differs, or the
status is 200) only if a comment with the given id authored by the caller
exists. Nothing depends on the owner of the post. -/
theorem deleteComment_guard (env : Env) (db : Db) (caller post_id comment_id : Id)
    (post : Post) (hread : env.readFault = none) (hpost : db.findPost post_id = some post) :
    ((∀ c ∈ post.comments, c.id ≠ comment_id) →
        deleteComment env db caller post_id comment_id
          = ⟨⟨404, .msg "Comment not found."⟩, db, false⟩) ∧
    ((∃ c ∈ post.comments, c.id = comment_id) →
      (∀ c ∈ post.comments, c.id = comment_id → c.user ≠ caller) →
        deleteComment env db caller post_id comment_id
          = ⟨⟨401, .msg "Unauthorized to remove comment."⟩, db, false⟩) ∧
    (((deleteComment env db caller post_id comment_id).persisted = true ∨
        (deleteComment env db caller post_id comment_id).db ≠ db ∨
        (deleteComment env db caller post_id comment_id).response.status = 200) →
      ∃ c ∈ post.comments, c.id = comment_id ∧ c.user = caller) := by
  refine ⟨?_, ?_, ?_⟩
  · intro habs
    have hfind : post.comments.find? (fun comment => comment.id == comment_id) = none := by
      rw [List.find?_eq_none]
      intro c hc
      simpa using habs c hc
    simp [deleteComment, hread, hpost, hfind]
  · rintro ⟨c0, hc0, hid0⟩ hother
    cases hfind : post.comments.find? (fun comment => comment.id == comment_id) with
    | none =>
      rw [List.find?_eq_none] at hfind
      exact absurd (by simpa using hid0) (hfind c0 hc0)
    | some c =>
      have hmem : c ∈ post.comments := List.mem_of_find?_eq_some hfind
      have hid : c.id = comment_id := by simpa using List.find?_some hfind
      have hne : c.user ≠ caller := hother c hmem hid
      simp [deleteComment, hread, hpost, hfind, hne]
  · intro hpass
    cases hfind : post.comments.find? (fun comment => comment.id == comment_id) with
    | none =>
      simp [deleteComment, hread, hpost, hfind] at hpass
    | some c =>
      have hmem : c ∈ post.comments := List.mem_of_find?_eq_some hfind
      have hid : c.id = comment_id := by simpa using List.find?_some hfind
      by_cases hu : c.user = caller
      · exact ⟨c, hmem, hid, hu⟩
      · simp [deleteComment, hread, hpost, hfind, hu] at hpass

/-- Witness of C1 on the sample store: `u2` asks to delete the comment `c1`
of `u1` and is answered 401, the store unchanged. -/
theorem deleteComment_guard_witness :
    envOk.readFault = none ∧ sampleDb.findPost "p1" = some samplePost ∧
    deleteComment envOk sampleDb "u2" "p1" "c1"
      = ⟨⟨401, .msg "Unauthorized to remove comment."⟩, sampleDb, false⟩ :=
  ⟨rfl, by decide,
    (deleteComment_guard envOk sampleDb "u2" "p1" "c1" samplePost rfl (by decide)).2.1
      (by decide) (by decide)⟩


/-- C2: the middleware answers 401 with a `msg` body, without calling `next`
and without assigning `req.user`, when the `x-auth-token` header is absent
or empty and when verification of the token throws; and the whole outcome
for an expired token equals the one for a token that is not valid. -/
theorem auth_rejects (verify : String → String → Except VerifyError Payload)
    (jwtSecret : String) (header : Option String)
    (hrej : header = none ∨ header = some "" ∨
      ∃ token e, header = some token ∧ verify token jwtSecret = .error e) :
    ((∃ m, (auth verify jwtSecret header).response = some ⟨401, .msg m⟩) ∧
      (auth verify jwtSecret header).nextCalls = 0 ∧
      (auth verify jwtSecret header).reqUser = none) ∧
    (∀ tExpired tBad, tExpired ≠ "" → tBad ≠ "" →
      verify tExpired jwtSecret = .error .tokenExpired →
      verify tBad jwtSecret = .error .invalidToken →
        auth verify jwtSecret (some tExpired) = auth verify jwtSecret (some tBad) ∧
        auth verify jwtSecret (some tExpired)
          = ⟨some ⟨401, .msg "Invalid token."⟩, 0, none⟩) := by
  constructor
  · rcases hrej with h | h | ⟨token, e, h, hv⟩
    · subst h
      exact ⟨⟨_, rfl⟩, rfl, rfl⟩
    · subst h
      exact ⟨⟨_, rfl⟩, rfl, rfl⟩
    · subst h
      by_cases ht : token = ""
      · subst ht
        exact ⟨⟨_, rfl⟩, rfl, rfl⟩
      · simp [auth, ht, hv]
  · intro tExpired tBad hne1 hne2 hv1 hv2
    have h1 : auth verify jwtSecret (some tExpired)
        = ⟨some ⟨401, .msg "Invalid token."⟩, 0, none⟩ := by
      simp [auth, hne1, hv1]
    have h2 : auth verify jwtSecret (some tBad)
        = ⟨some ⟨401, .msg "Invalid token."⟩, 0, none⟩ := by
      simp [auth, hne2, hv2]
    exact ⟨h1.trans h2.symm, h1⟩

/-- Witness of C2 with the sample verifier: the token `bad` is rejected
without calling `next`, and the expired token `old` gets the same outcome. -/
theorem auth_rejects_witness :
    sampleVerify "bad" "s3cret" = .error .invalidToken ∧
    sampleVerify "old" "s3cret" = .error .tokenExpired ∧
    (auth sampleVerify "s3cret" (some "bad")).response
      = some ⟨401, .msg "Invalid token."⟩ ∧
    (auth sampleVerify "s3cret" (some "bad")).nextCalls = 0 ∧
    (auth sampleVerify "s3cret" (some "bad")).reqUser = none ∧
    auth sampleVerify "s3cret" (some "old") = auth sampleVerify "s3cret" (some "bad") :=
  ⟨rfl, rfl, rfl,
    (auth_rejects sampleVerify "s3cret" (some "bad")
      (Or.inr (Or.inr ⟨"bad", .invalidToken, rfl, rfl⟩))).1.2.1,
    (auth_rejects sampleVerify "s3cret" (some "bad")
      (Or.inr (Or.inr ⟨"bad", .invalidToken, rfl, rfl⟩))).1.2.2,
    ((auth_rejects sampleVerify "s3cret" (some "bad")
      (Or.inr (Or.inr ⟨"bad", .invalidToken, rfl, rfl⟩))).2 "old" "bad"
        (by decide) (by decide) rfl rfl).1⟩

/-- C3: a failing input. The post `p1` is owned by `u1`; the request of `u2`
to delete it leaves the post in place, yet the response has status 200 (no
status is set) with the body `msg: Not authorized to remove post.`, while
the owner's request removes the post. -/
theorem deletePost_non_owner_status_200 :
    deletePost envOk sampleDb "u2" "p1"
      = ⟨⟨200, .msg "Not authorized to remove post."⟩, sampleDb, false⟩ ∧
    (deletePost envOk sampleDb "u1" "p1").db.findPost "p1" = none := by
  decide

/-- C4: on an existing post, add-like answers 400 exactly when the likes hold
an entry of the caller and unlike answers 400 exactly when they hold none,
so exactly one of the two is rejected; a rejected request returns the store
as it was and completes no write. -/
theorem like_unlike_preconditions (env : Env) (db : Db) (caller post_id : Id) (post : Post)
    (hread : env.readFault = none) (hpost : db.findPost post_id = some post) :
    ((putLike env db caller post_id).response.status = 400 ↔
        ∃ l ∈ post.likes, l.user = caller) ∧
    ((putUnlike env db caller post_id).response.status = 400 ↔
        ¬ ∃ l ∈ post.likes, l.user = caller) ∧
    (((putLike env db caller post_id).response.status = 400 ∧
        (putUnlike env db caller post_id).response.status ≠ 400) ∨
      ((putLike env db caller post_id).response.status ≠ 400 ∧
        (putUnlike env db caller post_id).response.status = 400)) ∧
    ((putLike env db caller post_id).response.status = 400 →
        putLike env db caller post_id = ⟨⟨400, .msg "Post already liked."⟩, db, false⟩) ∧
    ((putUnlike env db caller post_id).response.status = 400 →
        putUnlike env db caller post_id
          = ⟨⟨400, .msg "Post has not yet been liked."⟩, db, false⟩) := by
  have hiff := alreadyLiked_iff post.likes caller
  cases hinc : includes (post.likes.map (fun like => like.user)) caller with
  | true =>
    have hex : ∃ l ∈ post.likes, l.user = caller := hiff.mp hinc
    have hL : putLike env db caller post_id = ⟨⟨400, .msg "Post already liked."⟩, db, false⟩ := by
      simp [putLike, hread, hpost, hinc]
    have hU : (putUnlike env db caller post_id).response.status ≠ 400 := by
      cases hw : env.writeOk <;> simp [putUnlike, hread, hpost, hinc, hw, serverError]
    refine ⟨?_, ?_, ?_, ?_, ?_⟩
    · rw [hL]; exact ⟨fun _ => hex, fun _ => rfl⟩
    · exact ⟨fun h => absurd h hU, fun h => absurd hex h⟩
    · exact Or.inl ⟨by rw [hL], hU⟩
    · intro _; exact hL
    · intro h; exact absurd h hU
  | false =>
    have hnex : ¬ ∃ l ∈ post.likes, l.user = caller := by
      intro h
      have := hiff.mpr h
      rw [hinc] at this
      exact Bool.false_ne_true this
    have hU : putUnlike env db caller post_id
        = ⟨⟨400, .msg "Post has not yet been liked."⟩, db, false⟩ := by
      simp [putUnlike, hread, hpost, hinc]
    have hL : (putLike env db caller post_id).response.status ≠ 400 := by
      cases hw : env.writeOk <;> simp [putLike, hread, hpost, hinc, hw, serverError]
    refine ⟨?_, ?_, ?_, ?_, ?_⟩
    · exact ⟨fun h => absurd h hL, fun h => absurd h hnex⟩
    · rw [hU]; exact ⟨fun _ => hnex, fun _ => rfl⟩
    · exact Or.inr ⟨hL, by rw [hU]⟩
    · intro h; exact absurd h hL
    · intro _; exact hU

/-- Witness of C4 on the sample store, where `u1` has liked the post: add-like
by `u1` is rejected with 400 and unlike is not. -/
theorem like_unlike_preconditions_witness :
    envOk.readFault = none ∧ sampleDb.findPost "p1" = some samplePost ∧
    (((putLike envOk sampleDb "u1" "p1").response.status = 400 ∧
        (putUnlike envOk sampleDb "u1" "p1").response.status ≠ 400) ∨
      ((putLike envOk sampleDb "u1" "p1").response.status ≠ 400 ∧
        (putUnlike envOk sampleDb "u1" "p1").response.status = 400)) :=
  ⟨rfl, by decide,
    (like_unlike_preconditions envOk sampleDb "u1" "p1" samplePost rfl (by decide)).2.2.1⟩


/-- C5: a failing input. The post `p1` holds the like `l1` of `u1` followed by
the like `l2` of `u2`. Unlike by `u1` searches the renderings of the likes
for the post id, finds none, and splices at `-1`: the response and the
stored post hold `l1` of `u1` alone, the like of `u2` having been removed. -/
theorem putUnlike_removes_last_like :
    samplePost.likes = [⟨"l1", "u1"⟩, ⟨"l2", "u2"⟩] ∧
    indexOf (samplePost.likes.map (fun like => JsVal.str like.toString)) "p1" = -1 ∧
    (putUnlike envOk sampleDb "u1" "p1").response = ⟨200, .likes [⟨"l1", "u1"⟩]⟩ ∧
    ((putUnlike envOk sampleDb "u1" "p1").db.findPost "p1").map Post.likes
      = some [⟨"l1", "u1"⟩] := by
  decide

/-- C6: on an existing post whose comments carry pairwise distinct ids and
read `pre ++ c :: rest`, with `c` authored by the caller, delete-comment with
the id of `c` answers 200 with `pre ++ rest` and stores that collection:
exactly `c` is gone, at whatever position it stood, the other comments are
unchanged and in their order; when `c` was the only comment the answer is
the empty collection. -/
theorem deleteComment_removes_exactly (env : Env) (db : Db) (caller post_id : Id)
    (post : Post) (pre : List Comment) (c : Comment) (rest : List Comment)
    (hread : env.readFault = none) (hwrite : env.writeOk = true)
    (hpost : db.findPost post_id = some post)
    (hsplit : post.comments = pre ++ c :: rest)
    (hnd : (post.comments.map Comment.id).Nodup) (hown : c.user = caller) :
    (deleteComment env db caller post_id c.id).response = ⟨200, .comments (pre ++ rest)⟩ ∧
    ((deleteComment env db caller post_id c.id).db.findPost post_id).map Post.comments
      = some (pre ++ rest) ∧
    (pre ++ rest).length + 1 = post.comments.length ∧
    (post.comments = [c] →
      (deleteComment env db caller post_id c.id).response = ⟨200, .comments []⟩) := by
  have hid : post._id = post_id := findPost_id hpost
  have hbefore : ∀ x ∈ pre, x.id ≠ c.id := by
    rw [hsplit] at hnd
    exact ids_before_differ Comment.id pre c rest hnd
  have hfind : post.comments.find? (fun comment => comment.id == c.id) = some c := by
    rw [hsplit]
    exact find?_first_match Comment.id pre c rest c.id hbefore rfl
  have hidx : indexOf (post.comments.map (fun comment => JsVal.oid comment._id)) c.id
      = ((0 + pre.length : Nat) : Int) := by
    rw [hsplit]
    exact indexOfFrom_oid_found Comment._id pre c rest c.id 0 hbefore rfl
  have hspl : splice post.comments
      (indexOf (post.comments.map (fun comment => JsVal.oid comment._id)) c.id) 1
        = pre ++ rest := by
    rw [hidx, hsplit, Nat.zero_add]
    exact splice_at_length pre c rest
  have hsave := findPost_savePost db post_id post
    { post with comments := pre ++ rest } hpost hid
  have hresp : (deleteComment env db caller post_id c.id).response
      = ⟨200, .comments (pre ++ rest)⟩ := by
    simp [deleteComment, hread, hwrite, hpost, hfind, hown, hspl]
  refine ⟨hresp, ?_, ?_, ?_⟩
  · simp only [deleteComment, hread, hwrite, hpost, hfind, hown, hspl, if_true,
      beq_self_eq_true, Bool.not_true, Bool.false_eq_true, if_false]
    rw [hsave]
    rfl
  · rw [hsplit]; simp; omega
  · intro hone
    rw [hone] at hsplit
    have hlen := congrArg List.length hsplit
    simp at hlen
    have hpre : pre = [] := List.length_eq_zero.mp (by omega)
    have hrest : rest = [] := List.length_eq_zero.mp (by omega)
    rw [hresp, hpre, hrest]
    rfl

/-- Witness of C6 on the post with three comments: `u2` deletes the middle
comment `c2`; the answer and the stored post hold `c1` and `c3` in order. -/
theorem deleteComment_removes_exactly_witness :
    envOk.readFault = none ∧ envOk.writeOk = true ∧
    threadDb.findPost "p2" = some threadPost ∧
    (threadPost.comments.map Comment.id).Nodup ∧
    (deleteComment envOk threadDb "u2" "p2" "c2").response
      = ⟨200, .comments
          [⟨"c1", "u1", "hello", "Ann", "a1"⟩, ⟨"c3", "u1", "again", "Ann", "a1"⟩]⟩ :=
  ⟨rfl, rfl, by decide, by decide,
    (deleteComment_removes_exactly envOk threadDb "u2" "p2" threadPost
      [⟨"c1", "u1", "hello", "Ann", "a1"⟩] ⟨"c2", "u2", "world", "Bob", "a2"⟩
      [⟨"c3", "u1", "again", "Ann", "a1"⟩] rfl rfl (by decide) rfl (by decide) rfl).1⟩

/-- C7: a failing input. No experience entry and no education entry of the
profile of `u1` has the id `zz`. Remove-experience and remove-education with
that id answer 200 with the profile, and the stored collections have lost
their last entry (`e2`, resp. `d2`). -/
theorem delete_absent_entry_removes_last :
    (∀ e ∈ sampleProfile.experience, e.id ≠ "zz") ∧
    (∀ e ∈ sampleProfile.education, e.id ≠ "zz") ∧
    (deleteExperience envOk sampleDb "u1" "zz").response.status = 200 ∧
    ((deleteExperience envOk sampleDb "u1" "zz").db.findProfile "u1").map
        (fun p => p.experience.map Experience.id) = some ["e1"] ∧
    (deleteEducation envOk sampleDb "u1" "zz").response.status = 200 ∧
    ((deleteEducation envOk sampleDb "u1" "zz").db.findProfile "u1").map
        (fun p => p.education.map Education.id) = some ["d1"] := by
  decide

/-- C8: when the caller has a profile whose experience (resp. education)
entries carry pairwise distinct ids and the collection reads
`pre ++ e :: post`, remove-experience (resp. remove-education) with the id
of `e` stores and returns the profile with the collection `pre ++ post`: one
entry fewer, the other entries unchanged and in their order. -/
theorem delete_entry_removes_exactly (env : Env) (db : Db) (caller : Id) (profile : Profile)
    (hread : env.readFault = none) (hwrite : env.writeOk = true)
    (hprof : db.findProfile caller = some profile) :
    (∀ pre e post, profile.experience = pre ++ e :: post →
      (profile.experience.map Experience.id).Nodup →
        (deleteExperience env db caller e.id).response
          = ⟨200, .profile { profile with experience := pre ++ post }⟩ ∧
        (deleteExperience env db caller e.id).db.findProfile caller
          = some { profile with experience := pre ++ post } ∧
        (pre ++ post).length + 1 = profile.experience.length) ∧
    (∀ pre e post, profile.education = pre ++ e :: post →
      (profile.education.map Education.id).Nodup →
        (deleteEducation env db caller e.id).response
          = ⟨200, .profile { profile with education := pre ++ post }⟩ ∧
        (deleteEducation env db caller e.id).db.findProfile caller
          = some { profile with education := pre ++ post } ∧
        (pre ++ post).length + 1 = profile.education.length) := by
  have huser : profile.user = caller := findProfile_user hprof
  constructor
  · intro pre e post hsplit hnd
    rw [hsplit] at hnd
    have hidx : indexOf (profile.experience.map (fun exp => JsVal.str exp.id)) e.id
        = ((0 + pre.length : Nat) : Int) := by
      rw [hsplit]
      exact indexOfFrom_str_found Experience.id pre e post e.id 0
        (ids_before_differ Experience.id pre e post hnd) rfl
    have hspl : splice profile.experience
        (indexOf (profile.experience.map (fun exp => JsVal.str exp.id)) e.id) 1
          = pre ++ post := by
      rw [hidx, hsplit, Nat.zero_add]
      exact splice_at_length pre e post
    have hsave := findProfile_saveProfile db caller profile
      { profile with experience := pre ++ post } hprof huser
    refine ⟨?_, ?_, ?_⟩
    · simp [deleteExperience, hread, hwrite, hprof, hspl]
    · simp only [deleteExperience, hread, hwrite, hprof, hspl, if_true]
      exact hsave
    · rw [hsplit]; simp; omega
  · intro pre e post hsplit hnd
    rw [hsplit] at hnd
    have hidx : indexOf (profile.education.map (fun edu => JsVal.str edu.id)) e.id
        = ((0 + pre.length : Nat) : Int) := by
      rw [hsplit]
      exact indexOfFrom_str_found Education.id pre e post e.id 0
        (ids_before_differ Education.id pre e post hnd) rfl
    have hspl : splice profile.education
        (indexOf (profile.education.map (fun edu => JsVal.str edu.id)) e.id) 1
          = pre ++ post := by
      rw [hidx, hsplit, Nat.zero_add]
      exact splice_at_length pre e post
    have hsave := findProfile_saveProfile db caller profile
      { profile with education := pre ++ post } hprof huser
    refine ⟨?_, ?_, ?_⟩
    · simp [deleteEducation, hread, hwrite, hprof, hspl]
    · simp only [deleteEducation, hread, hwrite, hprof, hspl, if_true]
      exact hsave
    · rw [hsplit]; simp; omega


/-- Witness of C8 on the sample store: removing the experience `e1` of `u1`
stores the profile with the experience `e2` alone. -/
theorem delete_entry_removes_exactly_witness :
    envOk.readFault = none ∧ envOk.writeOk = true ∧
    sampleDb.findProfile "u1" = some sampleProfile ∧
    (sampleProfile.experience.map Experience.id).Nodup ∧
    ((deleteExperience envOk sampleDb "u1" "e1").db.findProfile "u1").map
        (fun p => p.experience.map Experience.id) = some ["e2"] :=
  ⟨rfl, rfl, by decide, by decide, by
    have h := ((delete_entry_removes_exactly envOk sampleDb "u1" sampleProfile rfl rfl
      (by decide)).1 [] (sampleExperience.get ⟨0, by decide⟩)
      [sampleExperience.get ⟨1, by decide⟩] rfl (by decide)).2.1
    rw [show (sampleExperience.get ⟨0, by decide⟩).id = "e1" from rfl] at h
    rw [h]
    rfl⟩

/-- C9: on an existing post whose likes hold no entry of the caller, add-like
answers 200 with the new entry of the caller followed by the previous likes
in their order, and stores that collection; it holds exactly one entry of
the caller, and if no identity had two entries before, none has two now. -/
theorem putLike_prepends (env : Env) (db : Db) (caller post_id : Id) (post : Post)
    (hread : env.readFault = none) (hwrite : env.writeOk = true)
    (hpost : db.findPost post_id = some post)
    (hnew : ∀ l ∈ post.likes, l.user ≠ caller) :
    (putLike env db caller post_id).response
      = ⟨200, .likes (⟨env.freshId, caller⟩ :: post.likes)⟩ ∧
    ((putLike env db caller post_id).db.findPost post_id).map Post.likes
      = some (⟨env.freshId, caller⟩ :: post.likes) ∧
    ((⟨env.freshId, caller⟩ :: post.likes : List Like).filter
      (fun l => l.user == caller)).length = 1 ∧
    ((post.likes.map Like.user).Nodup →
      ((⟨env.freshId, caller⟩ :: post.likes : List Like).map Like.user).Nodup) := by
  have hinc : includes (post.likes.map (fun like => like.user)) caller = false := by
    cases h : includes (post.likes.map (fun like => like.user)) caller with
    | false => rfl
    | true =>
      obtain ⟨l, hl, hu⟩ := (alreadyLiked_iff post.likes caller).mp h
      exact absurd hu (hnew l hl)
  have hid : post._id = post_id := findPost_id hpost
  have hsave := findPost_savePost db post_id post
    { post with likes := ⟨env.freshId, caller⟩ :: post.likes } hpost hid
  have hfilter : post.likes.filter (fun l => l.user == caller) = [] := by
    rw [List.filter_eq_nil_iff]
    intro l hl
    simpa using hnew l hl
  refine ⟨?_, ?_, ?_, ?_⟩
  · simp [putLike, hread, hwrite, hpost, hinc, unshift]
  · simp only [putLike, hread, hwrite, hpost, hinc, unshift, if_true, Bool.false_eq_true,
      if_false]
    rw [hsave]
    rfl
  · rw [List.filter_cons_of_pos (by simp), hfilter]
    rfl
  · intro hnd
    rw [List.map_cons, List.nodup_cons]
    refine ⟨?_, hnd⟩
    intro hmem
    obtain ⟨l, hl, hu⟩ := List.mem_map.mp hmem
    exact hnew l hl hu

/-- Witness of C9 on the sample store: `u3` has not liked the post `p1`, and
add-like by `u3` answers with the new entry in front of the two likes. -/
theorem putLike_prepends_witness :
    envOk.readFault = none ∧ envOk.writeOk = true ∧
    sampleDb.findPost "p1" = some samplePost ∧
    (∀ l ∈ samplePost.likes, l.user ≠ "u3") ∧
    (putLike envOk sampleDb "u3" "p1").response
      = ⟨200, .likes [⟨"n1", "u3"⟩, ⟨"l1", "u1"⟩, ⟨"l2", "u2"⟩]⟩ :=
  ⟨rfl, rfl, by decide, by decide,
    (putLike_prepends envOk sampleDb "u3" "p1" samplePost rfl rfl (by decide) (by decide)).1⟩

/-- C10: add is newest-first. With a non-empty text, a stored identity of the
caller and an existing post (owned by anyone), add-comment stores and
returns the comments with the new comment (author the caller, the supplied
text) in front of the previous ones; with the required fields present and
an existing profile of the caller, add-experience and add-education store
the collection with the new entry in front of the previous ones. -/
theorem add_is_newest_first (env : Env) (db : Db) (caller : Id)
    (hread : env.readFault = none) (hwrite : env.writeOk = true) :
    (∀ post_id text user post, text ≠ "" → db.findUser caller = some user →
      db.findPost post_id = some post →
        (postComment env db caller post_id (some text)).response
          = ⟨200, .comments
              (⟨env.freshId, caller, text, user.name, user.avatar⟩ :: post.comments)⟩ ∧
        ((postComment env db caller post_id (some text)).db.findPost post_id).map
            Post.comments
          = some (⟨env.freshId, caller, text, user.name, user.avatar⟩ :: post.comments)) ∧
    (∀ body profile, notEmpty body.title = true → notEmpty body.company = true →
      notEmpty body.from_ = true → db.findProfile caller = some profile →
        (putExperience env db caller body).response.status = 200 ∧
        ((putExperience env db caller body).db.findProfile caller).map Profile.experience
          = some (⟨env.freshId, body.title, body.company, body.location, body.from_,
              body.to_, body.current, body.description⟩ :: profile.experience)) ∧
    (∀ body profile, notEmpty body.school = true → notEmpty body.degree = true →
      notEmpty body.fieldofstudy = true → notEmpty body.from_ = true →
      db.findProfile caller = some profile →
        (putEducation env db caller body).response.status = 200 ∧
        ((putEducation env db caller body).db.findProfile caller).map Profile.education
          = some (⟨env.freshId, body.school, body.degree, body.fieldofstudy, body.from_,
              body.to_, body.current, body.description⟩ :: profile.education)) := by
  refine ⟨?_, ?_, ?_⟩
  · intro post_id text user post htext huser hpost
    have hid : post._id = post_id := findPost_id hpost
    have hsave := findPost_savePost db post_id post
      { post with comments :=
          ⟨env.freshId, caller, text, user.name, user.avatar⟩ :: post.comments }
      hpost hid
    have hval : notEmpty (some text) = true := by simp [notEmpty, htext]
    constructor
    · simp [postComment, hval, hread, hwrite, huser, hpost, unshift]
    · simp only [postComment, hval, hread, hwrite, huser, hpost, unshift, if_true,
        Bool.not_true, Bool.false_eq_true, if_false, Option.getD_some]
      rw [hsave]
      rfl
  · intro body profile h1 h2 h3 hprof
    have huser : profile.user = caller := findProfile_user hprof
    have hsave := findProfile_saveProfile db caller profile
      { profile with experience :=
          ⟨env.freshId, body.title, body.company, body.location, body.from_,
            body.to_, body.current, body.description⟩ :: profile.experience }
      hprof huser
    constructor
    · simp [putExperience, h1, h2, h3, hread, hwrite, hprof]
    · simp only [putExperience, h1, h2, h3, hread, hwrite, hprof, unshift, if_true,
        Bool.and_self, Bool.not_true, Bool.false_eq_true, if_false]
      rw [hsave]
      rfl
  · intro body profile h1 h2 h3 h4 hprof
    have huser : profile.user = caller := findProfile_user hprof
    have hsave := findProfile_saveProfile db caller profile
      { profile with education :=
          ⟨env.freshId, body.school, body.degree, body.fieldofstudy, body.from_,
            body.to_, body.current, body.description⟩ :: profile.education }
      hprof huser
    constructor
    · simp [putEducation, h1, h2, h3, h4, hread, hwrite, hprof]
    · simp only [putEducation, h1, h2, h3, h4, hread, hwrite, hprof, unshift, if_true,
        Bool.and_self, Bool.not_true, Bool.false_eq_true, if_false]
      rw [hsave]
      rfl

/-- Witness of C10 on the sample store: `u2`, who does not own the post `p1`,
adds the comment `hi`, which is stored in front of the two comments. -/
theorem add_is_newest_first_witness :
    envOk.readFault = none ∧ envOk.writeOk = true ∧
    sampleDb.findPost "p1" = some samplePost ∧ samplePost.user ≠ "u2" ∧
    ((postComment envOk sampleDb "u2" "p1" (some "hi")).db.findPost "p1").map Post.comments
      = some (⟨"n1", "u2", "hi", "Bob", "a2"⟩ :: sampleComments) :=
  ⟨rfl, rfl, by decide, by decide,
    ((add_is_newest_first envOk sampleDb "u2" rfl rfl).1 "p1" "hi"
      ⟨"u2", "Bob", "bob@x.io", "a2", "h2"⟩ samplePost (by decide) (by decide)
      (by decide)).2⟩

/-! ## The stand-in token package keeps the contract -/

theorem countOnes_replicate (n : Nat) (rest : List Char) :
    countOnes (List.replicate n '1' ++ '0' :: rest) = (n, rest) := by
  induction n with
  | zero => simp [countOnes]
  | succ k ih => simp [List.replicate_succ, countOnes, ih]

theorem sampleJwtVerify_encode (now : Nat) (id secret : String) (exp : Nat) :
    sampleJwtVerify now (sampleEncode id secret exp) secret
      = if now < exp then .ok ⟨some ⟨id⟩⟩ else .error .tokenExpired := by
  have ha : countOnes (sampleEncode id secret exp).data
      = (id.data.length, id.data ++ (List.replicate exp '1' ++ '0' :: secret.data)) :=
    countOnes_replicate _ _
  simp only [sampleJwtVerify, ha, List.drop_left, List.take_left, countOnes_replicate]
  simp

theorem sampleEncode_ne_empty (id secret : String) (exp : Nat) :
    sampleEncode id secret exp ≠ "" := by
  intro h
  have hdata := congrArg String.data h
  have hnil : List.replicate id.length '1' ++
      '0' :: (id.data ++ (List.replicate exp '1' ++ '0' :: secret.data)) = [] := hdata
  exact absurd hnil (List.append_ne_nil_of_right_ne_nil _ (List.cons_ne_nil _ _))

theorem sampleJwt_roundTrip : sampleJwt.RoundTrip := by
  intro iat payload secret span token now hsign
  cases payload with
  | mk user =>
    cases user with
    | none => simp [sampleJwt, sampleJwtSign] at hsign
    | some u =>
      have htok : sampleEncode u.id secret (iat + sampleSeconds span) = token := by
        simpa [sampleJwt, sampleJwtSign] using hsign
      subst htok
      refine ⟨sampleEncode_ne_empty _ _ _, ?_⟩
      intro hnow
      have hnow2 : now < iat + sampleSeconds span := hnow
      show sampleJwtVerify now (sampleEncode u.id secret (iat + sampleSeconds span)) secret = _
      rw [sampleJwtVerify_encode, if_pos hnow2]

/-- C11: issue and authenticate round trip. For a token package that keeps
its contract and reads `7d` as seven days: when registration passes its
checks, stores the new identity with the generated id `X` and the package
signs the payload with user id `X` under the process secret with the span
`7d`, the response carries exactly that token; and the middleware, given
that token and the same secret at any time before seven days have passed,
sends no response, calls `next` once and assigns to `req.user` the user
object whose id is `X`. -/
theorem register_then_authenticate (jwt : Jwt) (lib : Lib) (jwtSecret : String)
    (clock now : Nat) (env : Env) (db : Db) (body : UserBody) (token : String)
    (hjwt : jwt.RoundTrip) (hspan : jwt.seconds "7d" = 7 * 24 * 60 * 60)
    (hname : notEmpty body.name = true) (hemail : lib.isEmail (body.email.getD "") = true)
    (hpassword : 6 ≤ (body.password.getD "").length)
    (hread : env.readFault = none) (hwrite : env.writeOk = true)
    (hnew : db.users.find? (fun u => u.email == body.email.getD "") = none)
    (hsign : jwt.sign clock ⟨some ⟨env.freshId⟩⟩ jwtSecret "7d" = .ok token)
    (hnow : now < clock + 7 * 24 * 60 * 60) :
    (postUsers jwt lib jwtSecret clock env db body).response = some ⟨200, .token token⟩ ∧
    (∃ u ∈ (postUsers jwt lib jwtSecret clock env db body).db.users, u._id = env.freshId) ∧
    auth (jwt.verify now) jwtSecret (some token) = ⟨none, 1, some (some ⟨env.freshId⟩)⟩ := by
  have hlib := hjwt clock ⟨some ⟨env.freshId⟩⟩ jwtSecret "7d" token now hsign
  have hne : token ≠ "" := hlib.1
  have hver : jwt.verify now token jwtSecret = .ok ⟨some ⟨env.freshId⟩⟩ := by
    apply hlib.2
    rw [hspan]
    exact hnow
  refine ⟨?_, ?_, ?_⟩
  · simp [postUsers, hname, hemail, hpassword, hread, hwrite, hnew, hsign]
  · simp [postUsers, hname, hemail, hpassword, hread, hwrite, hnew, hsign, Db.insertUser]
    exact ⟨_, Or.inr rfl, rfl⟩
  · simp [auth, hne, hver]

/-- Witness of C11 with the stand-in packages: `cy@x.io` registers at time
1000 and receives the id `n1`; the token authenticates as `n1` at time 2000. -/
theorem register_then_authenticate_witness :
    sampleJwt.RoundTrip ∧ sampleJwt.seconds "7d" = 7 * 24 * 60 * 60 ∧
    sampleJwt.sign 1000 ⟨some ⟨envOk.freshId⟩⟩ "s3cret" "7d"
      = .ok (sampleEncode "n1" "s3cret" (1000 + sampleSeconds "7d")) ∧
    (postUsers sampleJwt sampleLib "s3cret" 1000 envOk sampleDb sampleUserBody).response
      = some ⟨200, .token (sampleEncode "n1" "s3cret" (1000 + sampleSeconds "7d"))⟩ ∧
    auth (sampleJwt.verify 2000) "s3cret"
        (some (sampleEncode "n1" "s3cret" (1000 + sampleSeconds "7d")))
      = ⟨none, 1, some (some ⟨"n1"⟩)⟩ :=
  ⟨sampleJwt_roundTrip, by decide, rfl,
    (register_then_authenticate sampleJwt sampleLib "s3cret" 1000 2000 envOk sampleDb
      sampleUserBody (sampleEncode "n1" "s3cret" (1000 + sampleSeconds "7d"))
      sampleJwt_roundTrip (by decide) (by decide) (by decide) (by decide) rfl rfl
      (by decide) rfl (by decide)).1,
    (register_then_authenticate sampleJwt sampleLib "s3cret" 1000 2000 envOk sampleDb
      sampleUserBody (sampleEncode "n1" "s3cret" (1000 + sampleSeconds "7d"))
      sampleJwt_roundTrip (by decide) (by decide) (by decide) (by decide) rfl rfl
      (by decide) rfl (by decide)).2.2⟩

/-- C12 as stated fails at four requests. Add-like with a failing save is
answered 500 with a plain text; remove-experience of an existing entry is
answered 200 with the profile object; add-experience is answered 200 with a
`msg` object; add-comment without text is answered 400 with the empty
object. None of the four is an array, or a `msg` object with a status among
400, 401, 404 and 500. -/
theorem mutation_response_shape_counterexample :
    ((putLike envWriteFails sampleDb "u3" "p1").response = ⟨500, .text "Server error."⟩ ∧
      ¬ ((putLike envWriteFails sampleDb "u3" "p1").response.body.isJsonArray = true ∨
        ((putLike envWriteFails sampleDb "u3" "p1").response.body.isMsgObject = true ∧
          (putLike envWriteFails sampleDb "u3" "p1").response.status ∈ [400, 401, 404, 500]))) ∧
    ((deleteExperience envOk sampleDb "u1" "e1").response.status = 200 ∧
      ¬ ((deleteExperience envOk sampleDb "u1" "e1").response.body.isJsonArray = true ∨
        ((deleteExperience envOk sampleDb "u1" "e1").response.body.isMsgObject = true ∧
          (deleteExperience envOk sampleDb "u1" "e1").response.status
            ∈ [400, 401, 404, 500]))) ∧
    ((putExperience envOk sampleDb "u1" sampleExperienceBody).response
        = ⟨200, .msg "Experience added."⟩ ∧
      ¬ ((putExperience envOk sampleDb "u1" sampleExperienceBody).response.body.isJsonArray
            = true ∨
        ((putExperience envOk sampleDb "u1" sampleExperienceBody).response.body.isMsgObject
            = true ∧
          (putExperience envOk sampleDb "u1" sampleExperienceBody).response.status
            ∈ [400, 401, 404, 500]))) ∧
    ((postComment envOk sampleDb "u1" "p1" none).response = ⟨400, .emptyObject⟩ ∧
      ¬ ((postComment envOk sampleDb "u1" "p1" none).response.body.isJsonArray = true ∨
        ((postComment envOk sampleDb "u1" "p1" none).response.body.isMsgObject = true ∧
          (postComment envOk sampleDb "u1" "p1" none).response.status
            ∈ [400, 401, 404, 500]))) := by
  decide

/-! ## Response shapes of the eight mutation endpoints -/

theorem putLike_shape (env : Env) (db : Db) (caller post_id : Id) :
    (∃ ls, (putLike env db caller post_id).response = ⟨200, .likes ls⟩ ∧
        (putLike env db caller post_id).persisted = true ∧
        ((putLike env db caller post_id).db.findPost post_id).map Post.likes = some ls) ∨
    (∃ m, putLike env db caller post_id = ⟨⟨400, .msg m⟩, db, false⟩) ∨
    (∃ m, putLike env db caller post_id = ⟨⟨404, .msg m⟩, db, false⟩) ∨
    putLike env db caller post_id = ⟨⟨500, .text "Server error."⟩, db, false⟩ := by
  cases hread : env.readFault with
  | some f => right; right; right; simp [putLike, hread, serverError]
  | none =>
    cases hpost : db.findPost post_id with
    | none => right; right; left; exact ⟨"Post not found.", by simp [putLike, hread, hpost]⟩
    | some post =>
      cases hinc : includes (post.likes.map (fun like => like.user)) caller with
      | true =>
        right; left
        exact ⟨"Post already liked.", by simp [putLike, hread, hpost, hinc]⟩
      | false =>
        cases hw : env.writeOk with
        | false => right; right; right; simp [putLike, hread, hpost, hinc, hw, serverError]
        | true =>
          left
          have hid : post._id = post_id := findPost_id hpost
          have hsave := findPost_savePost db post_id post
            { post with likes := unshift post.likes ⟨env.freshId, caller⟩ } hpost hid
          refine ⟨unshift post.likes ⟨env.freshId, caller⟩, ?_, ?_, ?_⟩
          · simp [putLike, hread, hpost, hinc, hw]
          · simp [putLike, hread, hpost, hinc, hw]
          · simp only [putLike, hread, hpost, hinc, hw, if_true, Bool.false_eq_true, if_false]
            rw [hsave]
            rfl

theorem putUnlike_shape (env : Env) (db : Db) (caller post_id : Id) :
    (∃ ls, (putUnlike env db caller post_id).response = ⟨200, .likes ls⟩ ∧
        (putUnlike env db caller post_id).persisted = true ∧
        ((putUnlike env db caller post_id).db.findPost post_id).map Post.likes = some ls) ∨
    (∃ m, putUnlike env db caller post_id = ⟨⟨400, .msg m⟩, db, false⟩) ∨
    (∃ m, putUnlike env db caller post_id = ⟨⟨404, .msg m⟩, db, false⟩) ∨
    putUnlike env db caller post_id = ⟨⟨500, .text "Server error."⟩, db, false⟩ := by
  cases hread : env.readFault with
  | some f => right; right; right; simp [putUnlike, hread, serverError]
  | none =>
    cases hpost : db.findPost post_id with
    | none =>
      right; right; left
      exact ⟨"Post not found.", by simp [putUnlike, hread, hpost]⟩
    | some post =>
      cases hinc : includes (post.likes.map (fun like => like.user)) caller with
      | false =>
        right; left
        exact ⟨"Post has not yet been liked.", by simp [putUnlike, hread, hpost, hinc]⟩
      | true =>
        cases hw : env.writeOk with
        | false => right; right; right; simp [putUnlike, hread, hpost, hinc, hw, serverError]
        | true =>
          left
          have hid : post._id = post_id := findPost_id hpost
          have hsave := findPost_savePost db post_id post
            { post with likes := (splice post.likes
                (indexOf (post.likes.map (fun like => JsVal.str like.toString)) post_id) 1) }
            hpost hid
          refine ⟨splice post.likes
            (indexOf (post.likes.map (fun like => JsVal.str like.toString)) post_id) 1,
            ?_, ?_, ?_⟩
          · simp [putUnlike, hread, hpost, hinc, hw]
          · simp [putUnlike, hread, hpost, hinc, hw]
          · simp only [putUnlike, hread, hpost, hinc, hw, if_true, Bool.not_true,
              Bool.false_eq_true, if_false]
            rw [hsave]
            rfl

theorem postComment_shape (env : Env) (db : Db) (caller post_id : Id) (text : Option String) :
    (∃ cs, (postComment env db caller post_id text).response = ⟨200, .comments cs⟩ ∧
        (postComment env db caller post_id text).persisted = true ∧
        ((postComment env db caller post_id text).db.findPost post_id).map Post.comments
          = some cs) ∨
    (notEmpty text = false ∧ ∃ r, postComment env db caller post_id text = ⟨r, db, false⟩ ∧
        r.body.isMsgObject = false ∧ r.body.isJsonArray = false) ∨
    postComment env db caller post_id text = ⟨⟨500, .text "Server error."⟩, db, false⟩ := by
  cases hval : notEmpty text with
  | false =>
    right; left
    exact ⟨rfl, ⟨400, .emptyObject⟩, by simp [postComment, hval], rfl, rfl⟩
  | true =>
    cases hread : env.readFault with
    | some f => right; right; simp [postComment, hval, hread, serverError]
    | none =>
      cases huser : db.findUser caller with
      | none => right; right; simp [postComment, hval, hread, huser, serverError]
      | some user =>
        cases hpost : db.findPost post_id with
        | none => right; right; simp [postComment, hval, hread, huser, hpost, serverError]
        | some post =>
          cases hw : env.writeOk with
          | false =>
            right; right; simp [postComment, hval, hread, huser, hpost, hw, serverError]
          | true =>
            left
            have hid : post._id = post_id := findPost_id hpost
            have hsave := findPost_savePost db post_id post
              { post with comments := (unshift post.comments
                  ⟨env.freshId, caller, text.getD "", user.name, user.avatar⟩) } hpost hid
            refine ⟨unshift post.comments
              ⟨env.freshId, caller, text.getD "", user.name, user.avatar⟩, ?_, ?_, ?_⟩
            · simp [postComment, hval, hread, huser, hpost, hw]
            · simp [postComment, hval, hread, huser, hpost, hw]
            · simp only [postComment, hval, hread, huser, hpost, hw, if_true, Bool.not_true,
                Bool.false_eq_true, if_false]
              rw [hsave]
              rfl

theorem deleteComment_shape (env : Env) (db : Db) (caller post_id comment_id : Id) :
    (∃ cs, (deleteComment env db caller post_id comment_id).response = ⟨200, .comments cs⟩ ∧
        (deleteComment env db caller post_id comment_id).persisted = true ∧
        ((deleteComment env db caller post_id comment_id).db.findPost post_id).map
          Post.comments = some cs) ∨
    (∃ m, deleteComment env db caller post_id comment_id = ⟨⟨401, .msg m⟩, db, false⟩) ∨
    (∃ m, deleteComment env db caller post_id comment_id = ⟨⟨404, .msg m⟩, db, false⟩) ∨
    deleteComment env db caller post_id comment_id
      = ⟨⟨500, .text "Server error."⟩, db, false⟩ := by
  cases hread : env.readFault with
  | some f => right; right; right; simp [deleteComment, hread, serverError]
  | none =>
    cases hpost : db.findPost post_id with
    | none => right; right; right; simp [deleteComment, hread, hpost, serverError]
    | some post =>
      cases hfind : post.comments.find? (fun comment => comment.id == comment_id) with
      | none =>
        right; right; left
        exact ⟨"Comment not found.", by simp [deleteComment, hread, hpost, hfind]⟩
      | some c =>
        by_cases hown : c.user = caller
        · cases hw : env.writeOk with
          | false =>
            right; right; right
            simp [deleteComment, hread, hpost, hfind, hown, hw, serverError]
          | true =>
            left
            have hid : post._id = post_id := findPost_id hpost
            have hsave := findPost_savePost db post_id post
              { post with comments := (splice post.comments
                  (indexOf (post.comments.map (fun comment => JsVal.oid comment._id))
                    comment_id) 1) } hpost hid
            refine ⟨splice post.comments
              (indexOf (post.comments.map (fun comment => JsVal.oid comment._id))
                comment_id) 1, ?_, ?_, ?_⟩
            · simp [deleteComment, hread, hpost, hfind, hown, hw]
            · simp [deleteComment, hread, hpost, hfind, hown, hw]
            · simp only [deleteComment, hread, hpost, hfind, hown, hw, if_true, beq_self_eq_true,
                Bool.not_true, Bool.false_eq_true, if_false]
              rw [hsave]
              rfl
        · right; left
          exact ⟨"Unauthorized to remove comment.",
            by simp [deleteComment, hread, hpost, hfind, hown]⟩

theorem putExperience_shape (env : Env) (db : Db) (caller : Id) (body : ExperienceBody) :
    ((putExperience env db caller body).response = ⟨200, .msg "Experience added."⟩ ∧
        (putExperience env db caller body).persisted = true) ∨
    ((notEmpty body.title && notEmpty body.company && notEmpty body.from_) = false ∧
      ∃ r, putExperience env db caller body = ⟨r, db, false⟩ ∧
        r.body.isMsgObject = false ∧ r.body.isJsonArray = false) ∨
    putExperience env db caller body = ⟨⟨500, .text "Server error."⟩, db, false⟩ := by
  cases hval : (notEmpty body.title && notEmpty body.company && notEmpty body.from_) with
  | false =>
    right; left
    exact ⟨rfl, ⟨200, .errors⟩, by simp [putExperience, hval], rfl, rfl⟩
  | true =>
    cases hread : env.readFault with
    | some f => right; right; simp [putExperience, hval, hread, serverError]
    | none =>
      cases hprof : db.findProfile caller with
      | none => right; right; simp [putExperience, hval, hread, hprof, serverError]
      | some profile =>
        cases hw : env.writeOk with
        | false => right; right; simp [putExperience, hval, hread, hprof, hw, serverError]
        | true => left; simp [putExperience, hval, hread, hprof, hw]

theorem putEducation_shape (env : Env) (db : Db) (caller : Id) (body : EducationBody) :
    ((putEducation env db caller body).response = ⟨200, .msg "Education added."⟩ ∧
        (putEducation env db caller body).persisted = true) ∨
    ((notEmpty body.school && notEmpty body.degree && notEmpty body.fieldofstudy
        && notEmpty body.from_) = false ∧
      ∃ r, putEducation env db caller body = ⟨r, db, false⟩ ∧
        r.body.isMsgObject = false ∧ r.body.isJsonArray = false) ∨
    putEducation env db caller body = ⟨⟨500, .text "Server error."⟩, db, false⟩ := by
  cases hval : (notEmpty body.school && notEmpty body.degree && notEmpty body.fieldofstudy
      && notEmpty body.from_) with
  | false =>
    right; left
    exact ⟨rfl, ⟨200, .errors⟩, by simp [putEducation, hval], rfl, rfl⟩
  | true =>
    cases hread : env.readFault with
    | some f => right; right; simp [putEducation, hval, hread, serverError]
    | none =>
      cases hprof : db.findProfile caller with
      | none => right; right; simp [putEducation, hval, hread, hprof, serverError]
      | some profile =>
        cases hw : env.writeOk with
        | false => right; right; simp [putEducation, hval, hread, hprof, hw, serverError]
        | true => left; simp [putEducation, hval, hread, hprof, hw]

theorem deleteExperience_shape (env : Env) (db : Db) (caller exp_id : Id) :
    (∃ p, (deleteExperience env db caller exp_id).response = ⟨200, .profile p⟩ ∧
        (deleteExperience env db caller exp_id).persisted = true ∧
        (deleteExperience env db caller exp_id).db.findProfile caller = some p) ∨
    deleteExperience env db caller exp_id = ⟨⟨500, .text "Server error."⟩, db, false⟩ := by
  cases hread : env.readFault with
  | some f => right; simp [deleteExperience, hread, serverError]
  | none =>
    cases hprof : db.findProfile caller with
    | none => right; simp [deleteExperience, hread, hprof, serverError]
    | some profile =>
      cases hw : env.writeOk with
      | false => right; simp [deleteExperience, hread, hprof, hw, serverError]
      | true =>
        left
        have huser : profile.user = caller := findProfile_user hprof
        have hsave := findProfile_saveProfile db caller profile
          { profile with experience := (splice profile.experience
              (indexOf (profile.experience.map (fun exp => JsVal.str exp.id)) exp_id) 1) }
          hprof huser
        refine ⟨{ profile with experience := (splice profile.experience
          (indexOf (profile.experience.map (fun exp => JsVal.str exp.id)) exp_id) 1) },
          ?_, ?_, ?_⟩
        · simp [deleteExperience, hread, hprof, hw]
        · simp [deleteExperience, hread, hprof, hw]
        · simp only [deleteExperience, hread, hprof, hw, if_true]
          exact hsave

theorem deleteEducation_shape (env : Env) (db : Db) (caller edu_id : Id) :
    (∃ p, (deleteEducation env db caller edu_id).response = ⟨200, .profile p⟩ ∧
        (deleteEducation env db caller edu_id).persisted = true ∧
        (deleteEducation env db caller edu_id).db.findProfile caller = some p) ∨
    deleteEducation env db caller edu_id = ⟨⟨500, .text "Server error."⟩, db, false⟩ := by
  cases hread : env.readFault with
  | some f => right; simp [deleteEducation, hread, serverError]
  | none =>
    cases hprof : db.findProfile caller with
    | none => right; simp [deleteEducation, hread, hprof, serverError]
    | some profile =>
      cases hw : env.writeOk with
      | false => right; simp [deleteEducation, hread, hprof, hw, serverError]
      | true =>
        left
        have huser : profile.user = caller := findProfile_user hprof
        have hsave := findProfile_saveProfile db caller profile
          { profile with education := (splice profile.education
              (indexOf (profile.education.map (fun edu => JsVal.str edu.id)) edu_id) 1) }
          hprof huser
        refine ⟨{ profile with education := (splice profile.education
          (indexOf (profile.education.map (fun edu => JsVal.str edu.id)) edu_id) 1) },
          ?_, ?_, ?_⟩
        · simp [deleteEducation, hread, hprof, hw]
        · simp [deleteEducation, hread, hprof, hw]
        · simp only [deleteEducation, hread, hprof, hw, if_true]
          exact hsave

/-- C12, amended: every response of the eight mutation endpoints is one of
the following. A success with status 200 whose body is the stored
sub-collection as an array (add-like, remove-like, add-comment,
remove-comment), the stored profile (remove-experience, remove-education) or
a `msg` object (add-experience, add-education). A rejection whose body is a
`msg` object, with status 400 or 404 (add-like, remove-like) or 401 or 404
(remove-comment). The answer to a request that fails input validation
(add-comment, add-experience, add-education), whose body is neither an
array nor a `msg` object. Or status 500 with the plain text `Server error.`.
Apart from a success, the store is returned as it was and no write
completes. -/
theorem mutation_response_shapes (env : Env) (db : Db) (caller : Id) :
    (∀ post_id,
      (∃ ls, (putLike env db caller post_id).response = ⟨200, .likes ls⟩ ∧
          (putLike env db caller post_id).persisted = true ∧
          ((putLike env db caller post_id).db.findPost post_id).map Post.likes = some ls) ∨
      (∃ m, putLike env db caller post_id = ⟨⟨400, .msg m⟩, db, false⟩) ∨
      (∃ m, putLike env db caller post_id = ⟨⟨404, .msg m⟩, db, false⟩) ∨
      putLike env db caller post_id = ⟨⟨500, .text "Server error."⟩, db, false⟩) ∧
    (∀ post_id,
      (∃ ls, (putUnlike env db caller post_id).response = ⟨200, .likes ls⟩ ∧
          (putUnlike env db caller post_id).persisted = true ∧
          ((putUnlike env db caller post_id).db.findPost post_id).map Post.likes = some ls) ∨
      (∃ m, putUnlike env db caller post_id = ⟨⟨400, .msg m⟩, db, false⟩) ∨
      (∃ m, putUnlike env db caller post_id = ⟨⟨404, .msg m⟩, db, false⟩) ∨
      putUnlike env db caller post_id = ⟨⟨500, .text "Server error."⟩, db, false⟩) ∧
    (∀ post_id text,
      (∃ cs, (postComment env db caller post_id text).response = ⟨200, .comments cs⟩ ∧
          (postComment env db caller post_id text).persisted = true ∧
          ((postComment env db caller post_id text).db.findPost post_id).map Post.comments
            = some cs) ∨
      (notEmpty text = false ∧ ∃ r, postComment env db caller post_id text = ⟨r, db, false⟩ ∧
          r.body.isMsgObject = false ∧ r.body.isJsonArray = false) ∨
      postComment env db caller post_id text = ⟨⟨500, .text "Server error."⟩, db, false⟩) ∧
    (∀ post_id comment_id,
      (∃ cs, (deleteComment env db caller post_id comment_id).response
            = ⟨200, .comments cs⟩ ∧
          (deleteComment env db caller post_id comment_id).persisted = true ∧
          ((deleteComment env db caller post_id comment_id).db.findPost post_id).map
            Post.comments = some cs) ∨
      (∃ m, deleteComment env db caller post_id comment_id = ⟨⟨401, .msg m⟩, db, false⟩) ∨
      (∃ m, deleteComment env db caller post_id comment_id = ⟨⟨404, .msg m⟩, db, false⟩) ∨
      deleteComment env db caller post_id comment_id
        = ⟨⟨500, .text "Server error."⟩, db, false⟩) ∧
    (∀ body,
      ((putExperience env db caller body).response = ⟨200, .msg "Experience added."⟩ ∧
          (putExperience env db caller body).persisted = true) ∨
      ((notEmpty body.title && notEmpty body.company && notEmpty body.from_) = false ∧
        ∃ r, putExperience env db caller body = ⟨r, db, false⟩ ∧
          r.body.isMsgObject = false ∧ r.body.isJsonArray = false) ∨
      putExperience env db caller body = ⟨⟨500, .text "Server error."⟩, db, false⟩) ∧
    (∀ exp_id,
      (∃ p, (deleteExperience env db caller exp_id).response = ⟨200, .profile p⟩ ∧
          (deleteExperience env db caller exp_id).persisted = true ∧
          (deleteExperience env db caller exp_id).db.findProfile caller = some p) ∨
      deleteExperience env db caller exp_id = ⟨⟨500, .text "Server error."⟩, db, false⟩) ∧
    (∀ body,
      ((putEducation env db caller body).response = ⟨200, .msg "Education added."⟩ ∧
          (putEducation env db caller body).persisted = true) ∨
      ((notEmpty body.school && notEmpty body.degree && notEmpty body.fieldofstudy
          && notEmpty body.from_) = false ∧
        ∃ r, putEducation env db caller body = ⟨r, db, false⟩ ∧
          r.body.isMsgObject = false ∧ r.body.isJsonArray = false) ∨
      putEducation env db caller body = ⟨⟨500, .text "Server error."⟩, db, false⟩) ∧
    (∀ edu_id,
      (∃ p, (deleteEducation env db caller edu_id).response = ⟨200, .profile p⟩ ∧
          (deleteEducation env db caller edu_id).persisted = true ∧
          (deleteEducation env db caller edu_id).db.findProfile caller = some p) ∨
      deleteEducation env db caller edu_id = ⟨⟨500, .text "Server error."⟩, db, false⟩) :=
  ⟨putLike_shape env db caller, putUnlike_shape env db caller,
    postComment_shape env db caller, deleteComment_shape env db caller,
    putExperience_shape env db caller, deleteExperience_shape env db caller,
    putEducation_shape env db caller, deleteEducation_shape env db caller⟩

end MERN
